import Mathlib

/-!
Verification of the real-time messaging core of the SIH backend.

The development shallowly embeds:
  - `src/config/socket.js` : the presence registry (`activeUsers`) and the
    typing tracker (`typingUsers`) with their helper functions;
  - `src/services/messaging.service.js` : the persistent-store operations
    (`createMessage`, `markMessagesAsRead`, `getUnreadMessageCount`,
    `getConversationById`), together with the constraints of
    `src/database/messaging_schema.sql` (CHECK sender_id != receiver_id,
    foreign key from messages to conversations, the trigger updating
    `last_message_at`);
  - `src/sockets/messaging.socket.js` : the socket event handlers, as a step
    function from (state, client event) to (state, list of emissions).

JavaScript `Map`s keyed by ids become association lists, `Set`s become
duplicate-free lists, and timestamps become logical `Nat` clocks.  Handlers
run to completion one at a time (the single-threaded event loop of §5 of the
spec), so a trace of client events is folded through the step function and
the emitted wire events are concatenated in processing order.
-/

namespace SIH

/-- Identifiers (user ids, socket ids, conversation ids, message ids) are
uuids in the source; any type with decidable equality works, we use `Nat`. -/
abbrev Id := Nat

/-! ## Presence registry and typing tracker (`src/config/socket.js`)

`activeUsers` is a `Map` from user id to the `Set` of live socket ids;
`typingUsers` is a `Map` from conversation id to the `Set` of typing user
ids.  Both are embedded as association lists whose values are
duplicate-free lists. -/

/-- An association list from ids to lists of ids: the embedding of the
JavaScript `Map` objects of `src/config/socket.js`. -/
abbrev IdMap := List (Id × List Id)

/-- Lookup: `map.get(k)` on the embedded `Map`. -/
def mapGet (m : IdMap) (k : Id) : Option (List Id) :=
  (m.find? (fun p => p.1 == k)).map Prod.snd

/-- Insertion: `set.add(x)` on the embedded `Set`: a no-op when the element is already
present, otherwise appended (JS sets preserve insertion order). -/
def setAdd (l : List Id) (x : Id) : List Id :=
  if l.contains x then l else l ++ [x]

/-- Function `addActiveUser(userId, socketId)`: create the entry if absent, then add
the socket id to the user's set. -/
def addActiveUser (m : IdMap) (userId socketId : Id) : IdMap :=
  match mapGet m userId with
  | none => m ++ [(userId, [socketId])]
  | some l => m.map (fun p => if p.1 == userId then (p.1, setAdd l socketId) else p)

/-- Function `removeActiveUser(userId, socketId)`: delete the socket id from the
user's set and drop the entry once the set is empty. -/
def removeActiveUser (m : IdMap) (userId socketId : Id) : IdMap :=
  match mapGet m userId with
  | none => m
  | some l =>
      let l2 := l.erase socketId
      if l2.isEmpty then m.filter (fun p => p.1 != userId)
      else m.map (fun p => if p.1 == userId then (p.1, l2) else p)

/-- Function `isUserOnline(userId)`: `activeUsers.has(userId) && activeUsers.get(userId).size > 0`. -/
def isUserOnline (m : IdMap) (userId : Id) : Bool :=
  match mapGet m userId with
  | none => false
  | some l => !l.isEmpty

/-- Function `getUserSocketIds(userId)`: the user's set of socket ids, defaulting to empty. -/
def getUserSocketIds (m : IdMap) (userId : Id) : List Id :=
  (mapGet m userId).getD []

/-- Function `addTypingUser(conversationId, userId)`: same `Map`-of-`Set` discipline
as `addActiveUser`, keyed by conversation. -/
def addTypingUser (m : IdMap) (conversationId userId : Id) : IdMap :=
  match mapGet m conversationId with
  | none => m ++ [(conversationId, [userId])]
  | some l => m.map (fun p => if p.1 == conversationId then (p.1, setAdd l userId) else p)

/-- Function `removeTypingUser(conversationId, userId)`: delete the user from the
conversation's typing set, dropping the entry once empty. -/
def removeTypingUser (m : IdMap) (conversationId userId : Id) : IdMap :=
  match mapGet m conversationId with
  | none => m
  | some l =>
      let l2 := l.erase userId
      if l2.isEmpty then m.filter (fun p => p.1 != conversationId)
      else m.map (fun p => if p.1 == conversationId then (p.1, l2) else p)

/-- Function `getTypingUsers(conversationId)`: the conversation's typing set as an array. -/
def getTypingUsers (m : IdMap) (conversationId : Id) : List Id :=
  (mapGet m conversationId).getD []

/-! ### The presence invariant (claim C1) -/

/-- A call to the presence registry: `addActiveUser` or `removeActiveUser`. -/
inductive PresOp
  | add (userId socketId : Id)
  | rem (userId socketId : Id)

/-- Apply one presence call. -/
def applyPresOp (m : IdMap) : PresOp → IdMap
  | .add u s => addActiveUser m u s
  | .rem u s => removeActiveUser m u s

/-- Run a sequence of `addActiveUser`/`removeActiveUser` calls from the
initial empty `activeUsers` map. -/
def runPresOps (ops : List PresOp) : IdMap :=
  ops.foldl applyPresOp []

/-- Spec notation `connections(I)`: the set of connection handles of identity `I`
(empty when no entry exists). -/
def connections (m : IdMap) (userId : Id) : List Id :=
  getUserSocketIds m userId

/-- Every entry of the map has a non-empty value list. -/
def EntriesNonEmpty (m : IdMap) : Prop :=
  ∀ p ∈ m, p.2 ≠ []

theorem setAdd_ne_nil (l : List Id) (x : Id) : setAdd l x ≠ [] := by
  unfold setAdd
  split
  · intro h
    subst h
    simp at *
  · simp

theorem addActiveUser_entriesNonEmpty (m : IdMap) (u s : Id)
    (h : EntriesNonEmpty m) : EntriesNonEmpty (addActiveUser m u s) := by
  unfold addActiveUser
  cases hm : mapGet m u with
  | none =>
      intro p hp
      rcases List.mem_append.mp hp with h1 | h1
      · exact h p h1
      · simp at h1
        subst h1
        simp
  | some l =>
      intro p hp
      rcases List.mem_map.mp hp with ⟨q, hq, hpq⟩
      by_cases hqu : q.1 == u
      · simp [hqu] at hpq
        subst hpq
        exact setAdd_ne_nil l s
      · simp [hqu] at hpq
        subst hpq
        exact h q hq

theorem removeActiveUser_entriesNonEmpty (m : IdMap) (u s : Id)
    (h : EntriesNonEmpty m) : EntriesNonEmpty (removeActiveUser m u s) := by
  unfold removeActiveUser
  cases hm : mapGet m u with
  | none => exact h
  | some l =>
      by_cases he : (l.erase s).isEmpty
      · simp only [he, if_true]
        intro p hp
        exact h p (List.mem_of_mem_filter hp)
      · simp only [he, if_false]
        intro p hp
        rcases List.mem_map.mp hp with ⟨q, hq, hpq⟩
        by_cases hqu : q.1 == u
        · simp [hqu] at hpq
          subst hpq
          simpa [List.isEmpty_iff] using he
        · simp [hqu] at hpq
          subst hpq
          exact h q hq

theorem runPresOps_entriesNonEmpty (ops : List PresOp) :
    EntriesNonEmpty (runPresOps ops) := by
  suffices h : ∀ (m : IdMap), EntriesNonEmpty m → EntriesNonEmpty (ops.foldl applyPresOp m) by
    apply h
    intro p hp
    simp at hp
  induction ops with
  | nil => intro m hm; exact hm
  | cons op rest ih =>
      intro m hm
      apply ih
      cases op with
      | add u s => exact addActiveUser_entriesNonEmpty m u s hm
      | rem u s => exact removeActiveUser_entriesNonEmpty m u s hm

theorem mapGet_nonEmpty (m : IdMap) (u : Id) (h : EntriesNonEmpty m)
    (l : List Id) (hl : mapGet m u = some l) : l ≠ [] := by
  unfold mapGet at hl
  cases hf : m.find? (fun p => p.1 == u) with
  | none => simp [hf] at hl
  | some q =>
      simp [hf] at hl
      subst hl
      exact h q (List.mem_of_find?_eq_some hf)

/-- C1. For every sequence of `addActiveUser`/`removeActiveUser` calls run
from the empty map and every identity `u`, `isUserOnline u` is `true`
exactly when `u`'s set of connection handles is non-empty, and the
`activeUsers` map has an entry for `u` exactly when that set is non-empty. -/
theorem presence_online_iff_connections_nonempty (ops : List PresOp) (u : Id) :
    (isUserOnline (runPresOps ops) u = true ↔ connections (runPresOps ops) u ≠ [])
    ∧ ((mapGet (runPresOps ops) u).isSome = true ↔ connections (runPresOps ops) u ≠ []) := by
  have hinv := runPresOps_entriesNonEmpty ops
  cases hm : mapGet (runPresOps ops) u with
  | none =>
      constructor
      · constructor
        · intro h
          simp [isUserOnline, hm] at h
        · intro h
          simp [connections, getUserSocketIds, hm] at h
      · constructor
        · intro h
          simp [hm] at h
        · intro h
          simp [connections, getUserSocketIds, hm] at h
  | some l =>
      have hl : l ≠ [] := mapGet_nonEmpty _ u hinv l hm
      constructor
      · constructor
        · intro _
          simpa [connections, getUserSocketIds, hm] using hl
        · intro _
          simp [isUserOnline, hm, List.isEmpty_iff, hl]
      · constructor
        · intro _
          simpa [connections, getUserSocketIds, hm] using hl
        · intro _
          simp [hm]

/-! ## Persistent store (`src/database/messaging_schema.sql` and
`src/services/messaging.service.js`) -/

/-- A row of the `conversations` table. -/
structure Conv where
  id : Id
  student_id : Id
  counsellor_id : Id
  college_id : Id
  last_message_at : Nat
  deriving DecidableEq, Repr

/-- A row of the `messages` table. -/
structure Msg where
  id : Id
  conversation_id : Id
  sender_id : Id
  receiver_id : Id
  message_text : String
  is_read : Bool
  read_at : Option Nat
  created_at : Nat
  deriving DecidableEq, Repr

/-- The durable state: the two tables, the id generator and a logical clock
standing in for `now()` / `new Date().toISOString()`. -/
structure Store where
  convs : List Conv
  msgs : List Msg
  nextMsgId : Id
  now : Nat
  deriving DecidableEq, Repr

/-- Function `getConversationById(conversationId, userId)`: select the conversation
with the given id whose `student_id` or `counsellor_id` equals `userId`
(the `.eq('id', ...)` plus `.or(student_id.eq..., counsellor_id.eq...)`
filters; `.single()` fails when no row matches, giving `none`). -/
def getConversationById (st : Store) (conversationId userId : Id) : Option Conv :=
  st.convs.find? (fun c =>
    c.id == conversationId && (c.student_id == userId || c.counsellor_id == userId))

/-- Does a message satisfy `conversation_id = cid AND receiver_id = uid AND
is_read = false` (the filter of `markMessagesAsRead`)? -/
def unreadInConvFor (cid uid : Id) (m : Msg) : Bool :=
  m.conversation_id == cid && m.receiver_id == uid && !m.is_read

/-- The row update of `markMessagesAsRead`: set `is_read = true`,
`read_at = now` when the row matches its filter, otherwise keep the row. -/
def markReadRow (cid uid : Id) (now : Nat) (m : Msg) : Msg :=
  if unreadInConvFor cid uid m then { m with is_read := true, read_at := some now } else m

/-- Function `markMessagesAsRead(conversationId, userId)`: update every message of
the conversation addressed to the user and still unread, returning the new
store together with the updated rows (the `.select()` result, whose length
the socket layer reports as `read_count`). -/
def markMessagesAsRead (st : Store) (conversationId userId : Id) : Store × List Msg :=
  ({ st with msgs := st.msgs.map (markReadRow conversationId userId st.now) },
   (st.msgs.filter (unreadInConvFor conversationId userId)).map
     (markReadRow conversationId userId st.now))

/-- Function `getUnreadMessageCount(userId)`: `COUNT` of messages with
`receiver_id = userId AND is_read = false`. -/
def getUnreadMessageCount (st : Store) (userId : Id) : Nat :=
  (st.msgs.filter (fun m => m.receiver_id == userId && !m.is_read)).length

/-- Function `createMessage(conversationId, senderId, receiverId, messageText)`:
insert a message with `is_read = false`, `created_at = now`.  The insert
fails (`Except.error`) when the foreign key to `conversations` is violated
or when the schema's `CHECK (sender_id != receiver_id)` is violated; on
success the schema trigger `update_conversation_last_message` sets the
conversation's `last_message_at` to the new row's `created_at`. -/
def createMessage (st : Store) (conversationId senderId receiverId : Id)
    (messageText : String) : Except String (Store × Msg) :=
  if st.convs.all (fun c => c.id != conversationId) then
    .error "foreign key violation: conversation_id"
  else if senderId == receiverId then
    .error "check violation: sender_id != receiver_id"
  else
    let m : Msg :=
      { id := st.nextMsgId
        conversation_id := conversationId
        sender_id := senderId
        receiver_id := receiverId
        message_text := messageText
        is_read := false
        read_at := none
        created_at := st.now }
    .ok ({ st with
            msgs := st.msgs ++ [m]
            nextMsgId := st.nextMsgId + 1
            convs := st.convs.map (fun c =>
              if c.id == conversationId then { c with last_message_at := st.now } else c) },
         m)

/-- Unread messages of a given conversation addressed to a given user:
the number of rows `markMessagesAsRead` would touch. -/
def unreadCountIn (st : Store) (cid uid : Id) : Nat :=
  (st.msgs.filter (unreadInConvFor cid uid)).length

/-! ### Mark-as-read lemmas -/

theorem markReadRow_not_unread (cid uid : Id) (now : Nat) (m : Msg) :
    unreadInConvFor cid uid (markReadRow cid uid now m) = false := by
  unfold markReadRow
  cases h : unreadInConvFor cid uid m with
  | false => simpa using h
  | true => simp [unreadInConvFor]

theorem markReadRow_eq_self (cid uid : Id) (now : Nat) (m : Msg)
    (h : unreadInConvFor cid uid m = false) : markReadRow cid uid now m = m := by
  unfold markReadRow
  rw [if_neg (by simp [h])]

theorem markReadRow_idem (cid uid : Id) (now : Nat) (m : Msg) :
    markReadRow cid uid now (markReadRow cid uid now m) = markReadRow cid uid now m :=
  markReadRow_eq_self cid uid now _ (markReadRow_not_unread cid uid now m)

theorem filter_unread_map_markReadRow (cid uid : Id) (now : Nat) (l : List Msg) :
    (l.map (markReadRow cid uid now)).filter (unreadInConvFor cid uid) = [] := by
  induction l with
  | nil => rfl
  | cons m rest ih =>
      simp only [List.map_cons, List.filter_cons, markReadRow_not_unread]
      exact ih

/-- C3. `markRead` is idempotent: a second `markMessagesAsRead` with no
intervening message returns zero updated rows (hence `read_count = 0` on
the wire) and leaves the store — in particular the reader's unread count —
unchanged. -/
theorem markMessagesAsRead_idempotent (st : Store) (cid uid : Id) :
    (markMessagesAsRead (markMessagesAsRead st cid uid).1 cid uid).2 = []
    ∧ (markMessagesAsRead (markMessagesAsRead st cid uid).1 cid uid).1
        = (markMessagesAsRead st cid uid).1
    ∧ getUnreadMessageCount (markMessagesAsRead (markMessagesAsRead st cid uid).1 cid uid).1 uid
        = getUnreadMessageCount (markMessagesAsRead st cid uid).1 uid := by
  have h2 : (markMessagesAsRead (markMessagesAsRead st cid uid).1 cid uid).1
      = (markMessagesAsRead st cid uid).1 := by
    simp only [markMessagesAsRead]
    congr 1
    rw [List.map_map]
    apply List.map_congr_left
    intro m _
    exact markReadRow_idem cid uid st.now m
  refine ⟨?_, h2, by rw [h2]⟩
  simp only [markMessagesAsRead, filter_unread_map_markReadRow, List.map_nil]

/-! ### Unread-count accounting -/

/-- The row filter of `getUnreadMessageCount`. -/
def unreadFor (uid : Id) (m : Msg) : Bool :=
  m.receiver_id == uid && !m.is_read

theorem getUnreadMessageCount_eq (st : Store) (uid : Id) :
    getUnreadMessageCount st uid = (st.msgs.filter (unreadFor uid)).length := rfl

theorem length_filter_split (p q : Msg → Bool) (l : List Msg) :
    (l.filter p).length
      = (l.filter (fun m => p m && q m)).length
        + (l.filter (fun m => p m && !(q m))).length := by
  induction l with
  | nil => rfl
  | cons m rest ih =>
      cases hp : p m <;> cases hq : q m <;>
        simp [List.filter_cons, hp, hq, ih] <;> omega

theorem unreadInConvFor_comm (cid uid : Id) (m : Msg) :
    unreadInConvFor cid uid m = (unreadFor uid m && (m.conversation_id == cid)) := by
  unfold unreadInConvFor unreadFor
  cases hc : (m.conversation_id == cid) <;> cases hr : (m.receiver_id == uid) <;>
    cases hi : m.is_read <;> simp [hc, hr, hi]

theorem unread_split (cid uid : Id) (l : List Msg) :
    (l.filter (unreadFor uid)).length
      = (l.filter (unreadInConvFor cid uid)).length
        + (l.filter (fun m => unreadFor uid m && !(m.conversation_id == cid))).length := by
  have h := length_filter_split (unreadFor uid) (fun m => m.conversation_id == cid) l
  have h1 : l.filter (fun m => unreadFor uid m && (m.conversation_id == cid))
      = l.filter (unreadInConvFor cid uid) := by
    apply List.filter_congr
    intro m _
    exact (unreadInConvFor_comm cid uid m).symm
  rw [h1] at h
  exact h

theorem unread_after_markRead (cid uid : Id) (now : Nat) (l : List Msg) :
    ((l.map (markReadRow cid uid now)).filter (unreadFor uid)).length
      = (l.filter (fun m => unreadFor uid m && !(m.conversation_id == cid))).length := by
  induction l with
  | nil => rfl
  | cons m rest ih =>
      cases h : unreadInConvFor cid uid m with
      | true =>
          have hrow : markReadRow cid uid now m
              = { m with is_read := true, read_at := some now } := by
            unfold markReadRow
            rw [if_pos h]
          have h2 : unreadFor uid (markReadRow cid uid now m) = false := by
            rw [hrow]
            simp [unreadFor]
          have h3 : (unreadFor uid m && !(m.conversation_id == cid)) = false := by
            rw [unreadInConvFor_comm] at h
            cases hu : unreadFor uid m
            · simp [hu]
            · rw [hu] at h
              simp at h
              simp [h]
          simp [List.filter_cons, h2, h3, ih]
      | false =>
          have hrow : markReadRow cid uid now m = m := markReadRow_eq_self cid uid now m h
          cases hu : unreadFor uid m with
          | false =>
              have h3 : (unreadFor uid m && !(m.conversation_id == cid)) = false := by
                simp [hu]
              simp [List.filter_cons, hrow, hu, h3, ih]
          | true =>
              rw [unreadInConvFor_comm, hu] at h
              simp at h
              have h3 : (unreadFor uid m && !(m.conversation_id == cid)) = true := by
                simp [hu, h]
              simp [List.filter_cons, hrow, hu, h3, h, ih]

theorem createMessage_ok (st : Store) (cid sender receiver : Id) (text : String)
    (st2 : Store) (m : Msg)
    (hok : createMessage st cid sender receiver text = .ok (st2, m)) :
    st2.msgs = st.msgs ++ [m]
    ∧ m.conversation_id = cid ∧ m.sender_id = sender ∧ m.receiver_id = receiver
    ∧ m.is_read = false ∧ st2.now = st.now ∧ sender ≠ receiver := by
  unfold createMessage at hok
  split at hok
  · simp at hok
  · split at hok
    next hcond2 => simp at hok
    next hcond2 =>
      rw [Except.ok.injEq, Prod.mk.injEq] at hok
      obtain ⟨h4, h5⟩ := hok
      subst h4
      subst h5
      refine ⟨rfl, rfl, rfl, rfl, rfl, rfl, ?_⟩
      simpa using hcond2

/-- C2 (amended). After a successful `send(C, A, B, text)` the unread count
of the receiver `B` is one greater than immediately before; a subsequent
`markRead(C, B)` returns it to the prior value provided `B` had no unread
messages in conversation `C` before the send. -/
theorem send_then_markRead_roundtrip (st : Store) (cid sender receiver : Id)
    (text : String) (st2 : Store) (m : Msg)
    (hok : createMessage st cid sender receiver text = .ok (st2, m)) :
    getUnreadMessageCount st2 receiver = getUnreadMessageCount st receiver + 1
    ∧ (unreadCountIn st cid receiver = 0 →
        getUnreadMessageCount (markMessagesAsRead st2 cid receiver).1 receiver
          = getUnreadMessageCount st receiver) := by
  obtain ⟨hmsgs, hcid, _hs, hr, hread, _hnow, _hne⟩ :=
    createMessage_ok st cid sender receiver text st2 m hok
  have hm : unreadFor receiver m = true := by
    simp [unreadFor, hr, hread]
  constructor
  · rw [getUnreadMessageCount_eq, getUnreadMessageCount_eq, hmsgs,
      List.filter_append, List.length_append]
    simp [List.filter_cons, hm]
  · intro h0
    have hA : getUnreadMessageCount (markMessagesAsRead st2 cid receiver).1 receiver
        = ((st2.msgs.map (markReadRow cid receiver st2.now)).filter (unreadFor receiver)).length :=
      rfl
    have hsingle :
        ([m].filter (fun x => unreadFor receiver x && !(x.conversation_id == cid))).length = 0 := by
      simp [List.filter_cons, hcid]
    have hsplit := unread_split cid receiver st.msgs
    rw [hA, unread_after_markRead, hmsgs, List.filter_append, List.length_append, hsingle,
      getUnreadMessageCount_eq]
    unfold unreadCountIn at h0
    omega

/-- The conversation used by the concrete unread-count scenarios:
conversation 1 between student 10 and counsellor 20 at college 99. -/
def convA : Conv :=
  { id := 1, student_id := 10, counsellor_id := 20, college_id := 99, last_message_at := 0 }

/-- A message of conversation 1 from user 10 to user 20, still unread. -/
def msgPrev : Msg :=
  { id := 100, conversation_id := 1, sender_id := 10, receiver_id := 20,
    message_text := "earlier", is_read := false, read_at := none, created_at := 0 }

/-- A store holding conversation 1 and one unread message for user 20. -/
def storeA : Store := { convs := [convA], msgs := [msgPrev], nextMsgId := 101, now := 5 }

/-- The message `createMessage storeA 1 10 20 "hi"` inserts. -/
def msgHi : Msg :=
  { id := 101, conversation_id := 1, sender_id := 10, receiver_id := 20,
    message_text := "hi", is_read := false, read_at := none, created_at := 5 }

/-- The store after that insert (trigger included). -/
def storeA2 : Store :=
  { convs := [{ convA with last_message_at := 5 }], msgs := [msgPrev, msgHi],
    nextMsgId := 102, now := 5 }

/-- C2 (counterexample). With one pre-existing unread message for `B = 20`
in conversation `C = 1`, `send(C, 10, 20, "hi")` raises `count(20)` from 1
to 2, but the subsequent `markRead(1, 20)` drops it to 0, not back to the
prior value 1: the round-trip clause of the claim fails. -/
theorem send_then_markRead_roundtrip_cex :
    createMessage storeA 1 10 20 "hi" = .ok (storeA2, msgHi)
    ∧ getUnreadMessageCount storeA 20 = 1
    ∧ getUnreadMessageCount storeA2 20 = 2
    ∧ getUnreadMessageCount (markMessagesAsRead storeA2 1 20).1 20 = 0
    ∧ getUnreadMessageCount (markMessagesAsRead storeA2 1 20).1 20
        ≠ getUnreadMessageCount storeA 20 := by
  refine ⟨rfl, by decide, by decide, by decide, by decide⟩

/-- A store holding conversation 1 and no messages at all. -/
def storeB : Store := { convs := [convA], msgs := [], nextMsgId := 101, now := 5 }

/-- The message `createMessage storeB 1 10 20 "hi"` inserts. -/
def msgHiB : Msg :=
  { id := 101, conversation_id := 1, sender_id := 10, receiver_id := 20,
    message_text := "hi", is_read := false, read_at := none, created_at := 5 }

/-- The store after that insert. -/
def storeB2 : Store :=
  { convs := [{ convA with last_message_at := 5 }], msgs := [msgHiB],
    nextMsgId := 102, now := 5 }

/-- Witness for C2 (amended): concrete run with no pre-existing unread
message in the conversation. -/
theorem send_then_markRead_roundtrip_witness :
    getUnreadMessageCount storeB2 20 = getUnreadMessageCount storeB 20 + 1
    ∧ getUnreadMessageCount (markMessagesAsRead storeB2 1 20).1 20
        = getUnreadMessageCount storeB 20 := by
  have h := send_then_markRead_roundtrip storeB 1 10 20 "hi" storeB2 msgHiB rfl
  exact ⟨h.1, h.2 (by decide)⟩

/-! ## Socket layer (`src/sockets/messaging.socket.js`)

Each registered event handler runs to completion on the single-threaded
event loop, so the server is a step function from (state, inbound event)
to (state, emitted wire events).  Emissions carry their broadcast target,
mirroring `socket.emit` (caller only), `socket.broadcast.emit` (everyone
but the caller), `io.to('conversation:...')` (the conversation room),
`socket.to('conversation:...')` (the room minus the caller),
`io.to('user:...')` (the user's personal room) and `io.emit` (everyone). -/

/-- JavaScript `String.prototype.trim` on the whitespace the messages can
contain. -/
def isSpaceChar (c : Char) : Bool :=
  c == ' ' || c == '\t' || c == '\n' || c == '\r'

/-- Embeds `message_text.trim()`. -/
def jsTrim (s : String) : String :=
  String.mk (((s.toList.dropWhile isSpaceChar).reverse.dropWhile isSpaceChar).reverse)

/-- Embeds `socket.join('conversation:...')`: add the socket to the room. -/
def roomAdd (m : IdMap) (conversationId socketId : Id) : IdMap :=
  match mapGet m conversationId with
  | none => m ++ [(conversationId, [socketId])]
  | some l => m.map (fun p => if p.1 == conversationId then (p.1, setAdd l socketId) else p)

/-- Embeds `socket.leave('conversation:...')`: remove the socket from the room. -/
def roomRemove (m : IdMap) (conversationId socketId : Id) : IdMap :=
  m.map (fun p => if p.1 == conversationId then (p.1, p.2.erase socketId) else p)

/-- The broadcast target of an emitted wire event. -/
inductive Dest
  | caller (socketId : Id)
  | broadcast (socketId : Id)
  | room (conversationId : Id)
  | roomOthers (conversationId socketId : Id)
  | user (userId : Id)
  | everyone
  deriving DecidableEq, Repr

/-- The server-to-client wire events of the messaging namespace, with their
payloads.  `unread_count_updated` is the event §4.7/§6 of the spec and the
repository's own real-time unread-count document describe; it is declared
here so its absence from the code's behaviour can be stated. -/
inductive Payload
  | errorMsg (message : String)
  | online_status (userId : Id) (online : Bool)
  | joined_conversation (conversationId : Id)
  | messages_read (conversationId readerId : Id) (read_count : Option Nat)
  | user_online_status (conversationId : Option Id) (userId : Id) (online : Bool)
  | new_message (conversationId : Id) (message : Msg)
  | new_message_notification (conversationId : Id) (message : Msg) (senderId : Id)
  | user_typing (conversationId userId : Id)
  | user_stopped_typing (conversationId userId : Id)
  | user_offline (userId : Id)
  | unread_count_updated (count : Nat)
  deriving DecidableEq, Repr

/-- One emitted wire event: where it goes and what it carries. -/
abbrev Emission := Dest × Payload

/-- Whole-server state: the persistent store plus the in-memory maps of
`src/config/socket.js` and the socket.io room membership. -/
structure SState where
  store : Store
  activeUsers : IdMap
  typingUsers : IdMap
  rooms : IdMap
  deriving DecidableEq, Repr

/-- The inbound events the messaging namespace reacts to.  Every event
carries the authenticated user id (`socket.user.user_id`) and the socket
id of the connection it arrived on.  `get_unread_count` is listed because
the spec's wire table has it; the source registers no handler for it. -/
inductive CEvent
  | connect (userId socketId : Id)
  | join_conversation (userId socketId conversationId : Id)
  | leave_conversation (userId socketId conversationId : Id)
  | send_message (userId socketId conversationId receiverId : Id) (messageText : String)
  | mark_as_read (userId socketId conversationId : Id)
  | typing (userId socketId conversationId : Id)
  | stop_typing (userId socketId conversationId : Id)
  | check_online_status (userId socketId targetUserId : Id)
  | get_unread_count (userId socketId : Id)
  | disconnect (userId socketId : Id)
  deriving DecidableEq, Repr

/-- The `io.on('connection')` body: `addActiveUser`, broadcast the online
status to everyone else, join the personal room. -/
def onConnect (s : SState) (uid sid : Id) : SState × List Emission :=
  ({ s with activeUsers := addActiveUser s.activeUsers uid sid },
   [(.broadcast sid, .online_status uid true)])

/-- The `join_conversation` handler: authorize through
`getConversationById`, join the room, mark messages read, ack, notify the
other participant (no `read_count` in this payload), report the other
participant's presence. -/
def onJoinConversation (s : SState) (uid sid cid : Id) : SState × List Emission :=
  match getConversationById s.store cid uid with
  | none => (s, [(.caller sid, .errorMsg "Conversation not found or access denied")])
  | some conv =>
      let otherUserId := if conv.student_id == uid then conv.counsellor_id else conv.student_id
      ({ s with rooms := roomAdd s.rooms cid sid,
                store := (markMessagesAsRead s.store cid uid).1 },
       [(.caller sid, .joined_conversation cid),
        (.user otherUserId, .messages_read cid uid none),
        (.caller sid, .user_online_status (some cid) otherUserId
            (isUserOnline s.activeUsers otherUserId))])

/-- The `leave_conversation` handler. -/
def onLeaveConversation (s : SState) (uid sid cid : Id) : SState × List Emission :=
  ({ s with rooms := roomRemove s.rooms cid sid,
            typingUsers := removeTypingUser s.typingUsers cid uid },
   [(.roomOthers cid sid, .user_stopped_typing cid uid)])

/-- The `send_message` handler: reject blank text, persist through
`createMessage` (surfacing a store error to the caller only), clear the
sender's typing state, fan out to the room and to the receiver's personal
room. -/
def onSendMessage (s : SState) (uid sid cid rid : Id) (text : String) :
    SState × List Emission :=
  if (jsTrim text).isEmpty then
    (s, [(.caller sid, .errorMsg "Message text cannot be empty")])
  else
    match createMessage s.store cid uid rid (jsTrim text) with
    | .error _ => (s, [(.caller sid, .errorMsg "Failed to send message")])
    | .ok (st2, m) =>
        ({ s with store := st2,
                  typingUsers := removeTypingUser s.typingUsers cid uid },
         [(.room cid, .user_stopped_typing cid uid),
          (.room cid, .new_message cid m),
          (.user rid, .new_message_notification cid m uid)])

/-- The `mark_as_read` handler: `read_count` is the number of updated rows. -/
def onMarkAsRead (s : SState) (uid sid cid : Id) : SState × List Emission :=
  let r := markMessagesAsRead s.store cid uid
  ({ s with store := r.1 },
   [(.roomOthers cid sid, .messages_read cid uid (some r.2.length))])

/-- The `typing` handler. -/
def onTyping (s : SState) (uid sid cid : Id) : SState × List Emission :=
  ({ s with typingUsers := addTypingUser s.typingUsers cid uid },
   [(.roomOthers cid sid, .user_typing cid uid)])

/-- The `stop_typing` handler. -/
def onStopTyping (s : SState) (uid sid cid : Id) : SState × List Emission :=
  ({ s with typingUsers := removeTypingUser s.typingUsers cid uid },
   [(.roomOthers cid sid, .user_stopped_typing cid uid)])

/-- The `check_online_status` handler. -/
def onCheckOnlineStatus (s : SState) (_uid sid target : Id) : SState × List Emission :=
  (s, [(.caller sid, .user_online_status none target (isUserOnline s.activeUsers target))])

/-- The `disconnect` handler: `removeActiveUser`, then `user_offline` to
everyone only when no other device keeps the user online.  socket.io
itself drops the dead socket from every room. -/
def onDisconnect (s : SState) (uid sid : Id) : SState × List Emission :=
  let au2 := removeActiveUser s.activeUsers uid sid
  ({ s with activeUsers := au2,
            rooms := s.rooms.map (fun p => (p.1, p.2.erase sid)) },
   if isUserOnline au2 uid then [] else [(.everyone, .user_offline uid)])

/-- One turn of the event loop.  `get_unread_count` has no registered
listener in the source, so socket.io silently drops it. -/
def step (s : SState) : CEvent → SState × List Emission
  | .connect u sid => onConnect s u sid
  | .join_conversation u sid c => onJoinConversation s u sid c
  | .leave_conversation u sid c => onLeaveConversation s u sid c
  | .send_message u sid c r t => onSendMessage s u sid c r t
  | .mark_as_read u sid c => onMarkAsRead s u sid c
  | .typing u sid c => onTyping s u sid c
  | .stop_typing u sid c => onStopTyping s u sid c
  | .check_online_status u sid t => onCheckOnlineStatus s u sid t
  | .get_unread_count _ _ => (s, [])
  | .disconnect u sid => onDisconnect s u sid

/-- Drain a trace of inbound events, concatenating the emissions in
processing order. -/
def processTrace (s : SState) : List CEvent → SState × List Emission
  | [] => (s, [])
  | e :: rest =>
      let r1 := step s e
      let r2 := processTrace r1.1 rest
      (r2.1, r1.2 ++ r2.2)

/-! ### Claim C4: join by a non-participant -/

/-- C4. When the caller is not one of the conversation's two participants,
`join_conversation` leaves the whole server state unchanged — no room
membership is added and no mark-as-read happens — and the only emission is
the authorization error sent to the caller alone. -/
theorem join_nonparticipant_rejected (s : SState) (uid sid cid : Id)
    (h : ∀ c ∈ s.store.convs, c.id = cid → uid ≠ c.student_id ∧ uid ≠ c.counsellor_id) :
    step s (.join_conversation uid sid cid)
      = (s, [(.caller sid, .errorMsg "Conversation not found or access denied")]) := by
  have hnone : getConversationById s.store cid uid = none := by
    unfold getConversationById
    rw [List.find?_eq_none]
    intro c hc hmatch
    simp at hmatch
    obtain ⟨h1, h2⟩ := hmatch
    rcases h2 with h2 | h2
    · exact (h c hc h1).1 h2.symm
    · exact (h c hc h1).2 h2.symm
  simp [step, onJoinConversation, hnone]

/-- A server state for the concrete scenarios: conversation 1 between
users 10 and 20, no messages, users 10 and 20 each online on one socket. -/
def sEmpty : SState :=
  { store := storeB, activeUsers := [(10, [1]), (20, [2])], typingUsers := [], rooms := [] }

/-- Witness for C4: user 30 (not a participant of conversation 1) is
rejected without any state change. -/
theorem join_nonparticipant_rejected_witness :
    step sEmpty (.join_conversation 30 7 1)
      = (sEmpty, [(.caller 7, .errorMsg "Conversation not found or access denied")]) :=
  join_nonparticipant_rejected sEmpty 30 7 1 (by decide)

/-! ### Claim C5: no typing auto-expiry -/

/-- The events whose handlers emit `user_stopped_typing`. -/
def ExplicitStopEvent : CEvent → Prop
  | .stop_typing _ _ _ => True
  | .leave_conversation _ _ _ => True
  | .send_message _ _ _ _ _ => True
  | _ => False

/-- Does an emission carry `user_stopped_typing`? -/
def isStoppedTyping (e : Emission) : Bool :=
  match e.2 with
  | .user_stopped_typing _ _ => true
  | _ => false

/-- A trace in which user 10 starts typing in conversation 1 and never
stops: both users connect, both join, then user 10 emits `typing`. -/
def typingTrace : List CEvent :=
  [.connect 10 1, .connect 20 2,
   .join_conversation 10 1 1, .join_conversation 20 2 1,
   .typing 10 1 1]

/-- C5 (counterexample). After `startTyping` and arbitrary inactivity with
no further client action, the server never emits `user_stopped_typing`
(the whole trace's emissions contain none) and the typing entry is still
present: the source registers no inactivity timer, so there is no state
transition left that could expire it. -/
theorem typing_no_auto_expiry_cex :
    getTypingUsers (processTrace sEmpty typingTrace).1.typingUsers 1 = [10]
    ∧ ((processTrace sEmpty typingTrace).2.all (fun e => !isStoppedTyping e)) = true := by
  exact ⟨by decide, by decide⟩

/-- C5 (amended). `user_stopped_typing` is emitted only while handling an
explicit `stop_typing`, a `leave_conversation`, or a `send_message` event;
no timer converts inactivity into a stop notification (the 3-second timer
in the repository lives in the documented client, which emits
`stop_typing` itself). -/
theorem stopped_typing_only_on_explicit_events (s : SState) (ev : CEvent)
    (d : Dest) (cid uid : Id)
    (h : (d, Payload.user_stopped_typing cid uid) ∈ (step s ev).2) :
    ExplicitStopEvent ev := by
  cases ev with
  | connect u sid => simp [step, onConnect] at h
  | join_conversation u sid c =>
      cases hc : getConversationById s.store c u <;>
        simp [step, onJoinConversation, hc] at h
  | leave_conversation u sid c => trivial
  | send_message u sid c r t => trivial
  | mark_as_read u sid c => simp [step, onMarkAsRead] at h
  | typing u sid c => simp [step, onTyping] at h
  | stop_typing u sid c => trivial
  | check_online_status u sid t => simp [step, onCheckOnlineStatus] at h
  | get_unread_count u sid => simp [step] at h
  | disconnect u sid =>
      cases hb : isUserOnline (removeActiveUser s.activeUsers u sid) u <;>
        simp [step, onDisconnect, hb] at h

/-- Witness for C5 (amended): an explicit `stop_typing` does emit the
notification, and the event is one of the explicit stop events. -/
theorem stopped_typing_only_on_explicit_events_witness :
    ExplicitStopEvent (CEvent.stop_typing 10 1 1) :=
  stopped_typing_only_on_explicit_events sEmpty (.stop_typing 10 1 1)
    (.roomOthers 1 1) 1 10 (by decide)

/-! ### Claim C7: presence broadcasts -/

/-- A server state in which user 10 is already online on socket 1. -/
def sOnline10 : SState :=
  { store := storeB, activeUsers := [(10, [1])], typingUsers := [], rooms := [] }

/-- C7 (counterexample). User 10 is already online (socket 1 live) when a
second connection (socket 2) arrives, yet the handler still broadcasts an
online transition: the broadcast is not restricted to the identity's first
live connection. -/
theorem online_broadcast_every_connection_cex :
    isUserOnline sOnline10.activeUsers 10 = true
    ∧ (step sOnline10 (.connect 10 2)).2 = [(.broadcast 2, .online_status 10 true)] := by
  exact ⟨by decide, rfl⟩

/-- C7 (amended). The connection handler broadcasts `online_status`
unconditionally on every new connection, whether or not the identity was
already online; the offline transition is broadcast exactly when the
removed connection was the identity's last remaining one (the set left by
`removeActiveUser` is empty). -/
theorem presence_broadcast_edges (s : SState) (uid sid : Id) :
    (step s (.connect uid sid)).2 = [(.broadcast sid, .online_status uid true)]
    ∧ (step s (.disconnect uid sid)).2
        = (if isUserOnline (removeActiveUser s.activeUsers uid sid) uid then []
           else [(.everyone, .user_offline uid)]) :=
  ⟨rfl, rfl⟩

/-! ### Claim C8: join marks read, but the notification carries no count -/

/-- A server state in which conversation 1 holds one unread message from
user 10 to user 20 and both users are online. -/
def sUnread : SState :=
  { store := storeA, activeUsers := [(10, [1]), (20, [2])], typingUsers := [], rooms := [] }

/-- C8 (counterexample). User 20 joins conversation 1 while exactly one
unread message addressed to them is pending.  The `messages_read`
notification sent to user 10 carries no `read_count` field at all — in
particular not the `read_count: 1` the claim requires. -/
theorem join_messages_read_no_count_cex :
    (step sUnread (.join_conversation 20 2 1)).2
      = [(.caller 2, .joined_conversation 1),
         (.user 10, .messages_read 1 20 none),
         (.caller 2, .user_online_status (some 1) 10 true)]
    ∧ ((step sUnread (.join_conversation 20 2 1)).2.all
        (fun e => e.2 != Payload.messages_read 1 20 (some 1))) = true := by
  exact ⟨rfl, by decide⟩

theorem unreadCountIn_after_markRead (st : Store) (cid uid : Id) :
    unreadCountIn (markMessagesAsRead st cid uid).1 cid uid = 0 := by
  show ((st.msgs.map (markReadRow cid uid st.now)).filter (unreadInConvFor cid uid)).length = 0
  rw [filter_unread_map_markReadRow]
  rfl

/-- The other participant of a conversation, as the handler computes it. -/
def otherParticipant (conv : Conv) (uid : Id) : Id :=
  if conv.student_id == uid then conv.counsellor_id else conv.student_id

/-- C8 (amended). A successful join by `uid` marks every unread message
addressed to `uid` in the conversation as read and sends the other
participant a `messages_read` notification that carries the conversation
and the reader but no `read_count` (only the explicit `mark_as_read`
handler reports a count). -/
theorem join_marks_read_and_notifies (s : SState) (uid sid cid : Id) (conv : Conv)
    (h : getConversationById s.store cid uid = some conv) :
    unreadCountIn (step s (.join_conversation uid sid cid)).1.store cid uid = 0
    ∧ (step s (.join_conversation uid sid cid)).2
        = [(.caller sid, .joined_conversation cid),
           (.user (otherParticipant conv uid), .messages_read cid uid none),
           (.caller sid, .user_online_status (some cid) (otherParticipant conv uid)
              (isUserOnline s.activeUsers (otherParticipant conv uid)))] := by
  constructor
  · simp only [step, onJoinConversation, h]
    exact unreadCountIn_after_markRead s.store cid uid
  · simp [step, onJoinConversation, h, otherParticipant]

/-- Witness for C8 (amended): the concrete join of `sUnread` by user 20. -/
theorem join_marks_read_and_notifies_witness :
    unreadCountIn (step sUnread (.join_conversation 20 2 1)).1.store 1 20 = 0
    ∧ (step sUnread (.join_conversation 20 2 1)).2
        = [(.caller 2, .joined_conversation 1),
           (.user (otherParticipant convA 20), .messages_read 1 20 none),
           (.caller 2, .user_online_status (some 1) (otherParticipant convA 20)
              (isUserOnline sUnread.activeUsers (otherParticipant convA 20)))] :=
  join_marks_read_and_notifies sUnread 20 2 1 convA (by decide)

/-! ### Claim C9: participant membership is not enforced on send -/

/-- C9 (counterexample). Conversation 1 is between users 10 and 20, yet
`send_message` from user 10 to receiver 30 — not a participant — persists
the message (the foreign key and the `sender_id != receiver_id` CHECK both
pass) and broadcasts it; `send` does not refuse it. -/
theorem send_nonparticipant_persisted_cex :
    ((step sEmpty (.send_message 10 1 1 30 "hi")).1.store.msgs.map
        (fun m => m.receiver_id)) = [30]
    ∧ (convA.student_id ≠ 30 ∧ convA.counsellor_id ≠ 30)
    ∧ ((step sEmpty (.send_message 10 1 1 30 "hi")).2.any
        (fun e => match e.2 with | .new_message _ _ => true | _ => false)) = true := by
  exact ⟨by decide, by decide, by decide⟩

/-- C9 (amended). What the store does enforce: a successful `createMessage`
implies `sender ≠ receiver` (the schema CHECK) and appends exactly the new
message, whose sender and receiver are the ones passed in — participant
membership in the target conversation is never checked. -/
theorem createMessage_check_constraint (st : Store) (cid sender receiver : Id)
    (text : String) (st2 : Store) (m : Msg)
    (hok : createMessage st cid sender receiver text = .ok (st2, m)) :
    sender ≠ receiver ∧ m.sender_id = sender ∧ m.receiver_id = receiver
    ∧ st2.msgs = st.msgs ++ [m] := by
  obtain ⟨h1, _h2, h3, h4, _h5, _h6, h7⟩ :=
    createMessage_ok st cid sender receiver text st2 m hok
  exact ⟨h7, h3, h4, h1⟩

/-- Witness for C9 (amended): the concrete insert into `storeB`. -/
theorem createMessage_check_constraint_witness :
    (10 : Id) ≠ 20 ∧ msgHiB.sender_id = 10 ∧ msgHiB.receiver_id = 20
    ∧ storeB2.msgs = storeB.msgs ++ [msgHiB] :=
  createMessage_check_constraint storeB 1 10 20 "hi" storeB2 msgHiB rfl

/-! ### Claim C6: the unread count is never pushed over the socket -/

/-- Does an emission carry `unread_count_updated`? -/
def isUnreadCountUpdated (e : Emission) : Bool :=
  match e.2 with
  | .unread_count_updated _ => true
  | _ => false

/-- C6. No handler of the messaging namespace ever emits
`unread_count_updated` — neither after `send_message` nor after
`mark_as_read` nor anywhere else — and `get_unread_count` has no
registered listener: the event leaves the state untouched and produces no
answer.  The on-demand pull and the push the spec (and the repository's
real-time unread-count document) describe are absent from the code. -/
theorem unread_count_never_pushed (s : SState) (ev : CEvent) (uid sid : Id) :
    ((step s ev).2.all (fun e => !isUnreadCountUpdated e)) = true
    ∧ step s (.get_unread_count uid sid) = (s, []) := by
  refine ⟨?_, rfl⟩
  cases ev with
  | connect u s2 => simp [step, onConnect, isUnreadCountUpdated]
  | join_conversation u s2 c =>
      cases hc : getConversationById s.store c u <;>
        simp [step, onJoinConversation, hc, isUnreadCountUpdated]
  | leave_conversation u s2 c => simp [step, onLeaveConversation, isUnreadCountUpdated]
  | send_message u s2 c r t =>
      cases ht : (jsTrim t).isEmpty with
      | true => simp [step, onSendMessage, ht, isUnreadCountUpdated]
      | false =>
          cases hc : createMessage s.store c u r (jsTrim t) with
          | error e => simp [step, onSendMessage, ht, hc, isUnreadCountUpdated]
          | ok p => simp [step, onSendMessage, ht, hc, isUnreadCountUpdated]
  | mark_as_read u s2 c => simp [step, onMarkAsRead, isUnreadCountUpdated]
  | typing u s2 c => simp [step, onTyping, isUnreadCountUpdated]
  | stop_typing u s2 c => simp [step, onStopTyping, isUnreadCountUpdated]
  | check_online_status u s2 t => simp [step, onCheckOnlineStatus, isUnreadCountUpdated]
  | get_unread_count u s2 => simp [step]
  | disconnect u s2 =>
      cases hb : isUserOnline (removeActiveUser s.activeUsers u s2) u <;>
        simp [step, onDisconnect, hb, isUnreadCountUpdated]

/-! ### Claim C10: broadcast order matches persistence order -/

/-- The ids of a conversation's messages in the order the store holds
them (messages are only ever appended). -/
def convMsgIds (st : Store) (cid : Id) : List Id :=
  (st.msgs.filter (fun m => m.conversation_id == cid)).map (fun m => m.id)

/-- The ids carried by the `new_message` broadcasts for a conversation, in
emission order. -/
def broadcastMsgIds (out : List Emission) (cid : Id) : List Id :=
  out.filterMap (fun e =>
    match e.2 with
    | .new_message c m => if c == cid then some m.id else none
    | _ => none)

theorem broadcastMsgIds_append (a b : List Emission) (cid : Id) :
    broadcastMsgIds (a ++ b) cid = broadcastMsgIds a cid ++ broadcastMsgIds b cid :=
  List.filterMap_append a b _

theorem markReadRow_preserves_key (cid uid : Id) (now : Nat) (m : Msg) :
    (markReadRow cid uid now m).conversation_id = m.conversation_id
    ∧ (markReadRow cid uid now m).id = m.id := by
  unfold markReadRow
  cases h : unreadInConvFor cid uid m <;> simp

theorem convMsgIds_markRead (st : Store) (c2 u2 cid : Id) :
    convMsgIds (markMessagesAsRead st c2 u2).1 cid = convMsgIds st cid := by
  show ((st.msgs.map (markReadRow c2 u2 st.now)).filter
      (fun m => m.conversation_id == cid)).map (fun m => m.id)
    = (st.msgs.filter (fun m => m.conversation_id == cid)).map (fun m => m.id)
  induction st.msgs with
  | nil => rfl
  | cons m rest ih =>
      obtain ⟨h1, h2⟩ := markReadRow_preserves_key c2 u2 st.now m
      cases hc : (m.conversation_id == cid) with
      | true =>
          have h3 : ((markReadRow c2 u2 st.now m).conversation_id == cid) = true := by
            rw [h1]; exact hc
          simp [List.filter_cons, hc, h3, h2, ih]
      | false =>
          have h3 : ((markReadRow c2 u2 st.now m).conversation_id == cid) = false := by
            rw [h1]; exact hc
          simp [List.filter_cons, hc, h3, ih]

theorem step_broadcast_matches_persistence (s : SState) (ev : CEvent) (cid : Id) :
    convMsgIds (step s ev).1.store cid
      = convMsgIds s.store cid ++ broadcastMsgIds (step s ev).2 cid := by
  cases ev with
  | connect u s2 => simp [step, onConnect, broadcastMsgIds]
  | join_conversation u s2 c =>
      cases hc : getConversationById s.store c u with
      | none => simp [step, onJoinConversation, hc, broadcastMsgIds]
      | some conv =>
          simp [step, onJoinConversation, hc, broadcastMsgIds, convMsgIds_markRead]
  | leave_conversation u s2 c => simp [step, onLeaveConversation, broadcastMsgIds]
  | send_message u s2 c r t =>
      cases ht : (jsTrim t).isEmpty with
      | true => simp [step, onSendMessage, ht, broadcastMsgIds]
      | false =>
          cases hc : createMessage s.store c u r (jsTrim t) with
          | error e => simp [step, onSendMessage, ht, hc, broadcastMsgIds]
          | ok p =>
              obtain ⟨hmsgs, hcid, _, _, _, _, _⟩ :=
                createMessage_ok s.store c u r (jsTrim t) p.1 p.2 (by rw [hc])
              simp only [step, onSendMessage, ht, Bool.false_eq_true, if_false, hc]
              show convMsgIds p.1 cid
                  = convMsgIds s.store cid
                    ++ broadcastMsgIds
                        [(.room c, .user_stopped_typing c u),
                         (.room c, .new_message c p.2),
                         (.user r, .new_message_notification c p.2 u)] cid
              have hB : broadcastMsgIds
                  [(.room c, .user_stopped_typing c u),
                   (.room c, .new_message c p.2),
                   (.user r, .new_message_notification c p.2 u)] cid
                  = if c == cid then [p.2.id] else [] := by
                cases hcc : (c == cid) with
                | true =>
                    have hcc2 : c = cid := by simpa using hcc
                    simp [broadcastMsgIds, hcc, hcc2]
                | false =>
                    have hcc2 : ¬c = cid := by simpa using hcc
                    simp [broadcastMsgIds, hcc, hcc2]
              rw [hB]
              unfold convMsgIds
              rw [hmsgs, List.filter_append, List.map_append]
              congr 1
              cases hcc : (c == cid) with
              | true =>
                  have : (p.2.conversation_id == cid) = true := by
                    rw [hcid]; exact hcc
                  simp [List.filter_cons, this, hcc]
              | false =>
                  have : (p.2.conversation_id == cid) = false := by
                    rw [hcid]; exact hcc
                  simp [List.filter_cons, this, hcc]
  | mark_as_read u s2 c =>
      simp [step, onMarkAsRead, broadcastMsgIds, convMsgIds_markRead]
  | typing u s2 c => simp [step, onTyping, broadcastMsgIds]
  | stop_typing u s2 c => simp [step, onStopTyping, broadcastMsgIds]
  | check_online_status u s2 t => simp [step, onCheckOnlineStatus, broadcastMsgIds]
  | get_unread_count u s2 => simp [step, broadcastMsgIds]
  | disconnect u s2 =>
      cases hb : isUserOnline (removeActiveUser s.activeUsers u s2) u <;>
        simp [step, onDisconnect, hb, broadcastMsgIds]

/-- C10. Over any trace of inbound events, the sequence of message ids the
server broadcasts as `new_message` for a conversation equals, in order,
the sequence of message ids appended to that conversation in the store:
broadcast order matches persistence order per conversation.  In
particular, when a sender's `m1` is processed before their `m2` in the
same conversation, every room member observes `new_message(m1)` before
`new_message(m2)`. -/
theorem broadcast_order_matches_persistence_order (s : SState) (tr : List CEvent)
    (cid : Id) :
    convMsgIds (processTrace s tr).1.store cid
      = convMsgIds s.store cid ++ broadcastMsgIds (processTrace s tr).2 cid := by
  induction tr generalizing s with
  | nil => simp [processTrace, broadcastMsgIds]
  | cons e rest ih =>
      have h1 := step_broadcast_matches_persistence s e cid
      have h2 := ih (step s e).1
      show convMsgIds (processTrace (step s e).1 rest).1.store cid
          = convMsgIds s.store cid
            ++ broadcastMsgIds ((step s e).2 ++ (processTrace (step s e).1 rest).2) cid
      rw [h2, h1, broadcastMsgIds_append, List.append_assoc]

end SIH
